import Mathlib

/-!
Verification of the library management service (`library_service.py`)
against its specification. Times are modelled as seconds since an epoch
(`Nat`); currency amounts as integer cents (`Nat`, or `Int` where the
interface admits negative inputs). Storage primitives that live in the
external `database` module are modelled from the spec's collaborator
contracts; the service functions themselves are translated line by line
from `library_service.py`.
-/

/-- Seconds in one day. Python's `timedelta.days` on a positive difference
is floor division of the second count by 86400, i.e. `Nat` division here. -/
def secondsPerDay : Nat := 86400

/-- Patron-id validation shared by the service functions: exactly 6
characters, all digits (`library_service.py` lines 76, 117-123, 204-218;
the extra `not patron_id` truthiness test in `borrow_book_by_patron` is
subsumed by the length check). -/
def isValidPatronId (p : String) : Bool :=
  p.length == 6 && p.toList.all Char.isDigit

/-- A catalog book row (fields used by the verified operations;
`author`/`isbn` never reach the claims). `available_copies` is `Int`,
mirroring an unconstrained SQL integer column. -/
structure Book where
  id : Nat
  title : String
  total_copies : Int
  available_copies : Int
deriving Repr, DecidableEq

/-- A borrow-record row: `return_date = none` is an active loan. -/
structure BorrowRecord where
  patron_id : String
  book_id : Nat
  borrow_date : Nat
  due_date : Nat
  return_date : Option Nat
deriving Repr, DecidableEq

/-- The persistent storage state: the `books` and `borrow_records` tables,
rows in insertion order. -/
structure LibraryState where
  books : List Book
  records : List BorrowRecord
deriving Repr, DecidableEq

/-- Modelled from the spec: storage primitive `find_book(id) -> Book|none`
(`get_book_by_id` of the external `database` module, not under src/):
first row whose id matches. -/
def get_book_by_id (st : LibraryState) (book_id : Nat) : Option Book :=
  st.books.find? (fun b => b.id == book_id)

/-- Modelled from the spec: storage primitive
`count_active_loans(patron_id) -> int` (`get_patron_borrow_count` of the
external `database` module, not under src/): number of records for the
patron with `return_date` null. -/
def get_patron_borrow_count (st : LibraryState) (patron_id : String) : Nat :=
  (st.records.filter
    (fun r => r.patron_id == patron_id && r.return_date == none)).length

/-- The active-record lookup issued directly by the service
(`SELECT * FROM borrow_records WHERE patron_id = ? AND book_id = ? AND
return_date IS NULL` + `fetchone()`, `library_service.py` lines 131-136
and 230-235): first matching row. -/
def find_active_record (st : LibraryState) (patron_id : String)
    (book_id : Nat) : Option BorrowRecord :=
  st.records.find?
    (fun r => r.patron_id == patron_id && r.book_id == book_id &&
      r.return_date == none)

/-- Modelled from the spec: storage primitive
`adjust_available_copies(book_id, delta) -> bool`
(`update_book_availability` of the external `database` module, not under
src/), and likewise the direct SQL
`UPDATE books SET available_copies = available_copies + 1` of the return
path: add `delta` to the matching rows. -/
def adjust_available_copies (books : List Book) (book_id : Nat)
    (delta : Int) : List Book :=
  books.map (fun b =>
    if b.id == book_id then
      { b with available_copies := b.available_copies + delta }
    else b)

/-- Renders a cent amount the way Python's `f"{fee:.2f}"` renders the
corresponding dollar amount (all fees are whole cents). -/
def centsToDollars (c : Nat) : String :=
  let r := c % 100
  toString (c / 100) ++ "." ++
    (if r < 10 then "0" ++ toString r else toString r)

/-- The late-fee computation of `return_book_by_patron`
(`library_service.py` lines 147-162), verbatim: zero when not past due,
else day-truncated difference, $0.50/day up to 7 days, $1.00/day beyond,
capped at $15.00. Returns `(days_late, late_fee)` in (days, cents). -/
def return_fee_days (due_date today : Nat) : Nat × Nat :=
  if due_date < today then
    let days_late := (today - due_date) / secondsPerDay
    let late_fee :=
      if days_late ≤ 7 then 50 * days_late
      else 350 + 100 * (days_late - 7)
    (days_late, if 1500 < late_fee then 1500 else late_fee)
  else (0, 0)

/-- The spec's fee formula, written from the spec's words for
refinement comparison:
`fee = min(15.00, 0.50*min(days_overdue,7) + 1.00*max(days_overdue-7,0))`
(in cents; `Nat` subtraction supplies the `max` with 0). -/
def specFeeCents (days_overdue : Nat) : Nat :=
  min 1500 (50 * min days_overdue 7 + 100 * (days_overdue - 7))

/-- The structured quote returned by `calculate_late_fee_for_book`:
`fee_amount` in cents, `days_overdue`, and a status string. -/
structure FeeQuote where
  fee_amount : Nat
  days_overdue : Nat
  status : String
deriving Repr, DecidableEq

/-- `calculate_late_fee_for_book` (`library_service.py` lines 190-277):
validates the patron id, looks up the book, finds the active record,
returns `Book not overdue` when `today <= due_date`, else the truncated
day count and piecewise capped fee with status `Success`. -/
def calculate_late_fee_for_book (st : LibraryState) (patron_id : String)
    (book_id : Nat) (now : Nat) : FeeQuote :=
  if !(isValidPatronId patron_id) then
    ⟨0, 0, "Invalid patron ID"⟩
  else
    match get_book_by_id st book_id with
    | none => ⟨0, 0, "Book not found"⟩
    | some _ =>
      match find_active_record st patron_id book_id with
      | none => ⟨0, 0, "No active borrow record found"⟩
      | some record =>
        if now ≤ record.due_date then
          ⟨0, 0, "Book not overdue"⟩
        else
          let days_overdue := (now - record.due_date) / secondsPerDay
          let fee :=
            if days_overdue ≤ 7 then 50 * days_overdue
            else 350 + 100 * (days_overdue - 7)
          ⟨if 1500 < fee then 1500 else fee, days_overdue, "Success"⟩

/-- Injectable storage write failures, per the spec's StorageFailure
taxonomy: whether `insert_borrow_record` and `update_book_availability`
report failure on this call. -/
structure StorageFaults where
  insert_record_fails : Bool
  update_availability_fails : Bool
deriving Repr, DecidableEq

/-- `borrow_book_by_patron` (`library_service.py` lines 63-106): validate
patron id, book existence, availability, 5-loan limit; then insert the
borrow record with `due_date = now + 14 days` and decrement availability.
A failing insert leaves the state untouched; a failing availability
update returns failure but — as in the source — leaves the already
inserted record in place. The due date in the success message is rendered
as the raw timestamp (the source formats it as a calendar date). -/
def borrow_book_by_patron (faults : StorageFaults) (st : LibraryState)
    (patron_id : String) (book_id : Nat) (now : Nat) :
    Bool × String × LibraryState :=
  if !(isValidPatronId patron_id) then
    (false, "Invalid patron ID. Must be exactly 6 digits.", st)
  else
    match get_book_by_id st book_id with
    | none => (false, "Book not found.", st)
    | some book =>
      if book.available_copies ≤ 0 then
        (false, "This book is currently not available.", st)
      else if 5 ≤ get_patron_borrow_count st patron_id then
        (false, "You have reached the maximum borrowing limit of 5 books.", st)
      else
        let borrow_date := now
        let due_date := borrow_date + 14 * secondsPerDay
        if faults.insert_record_fails then
          (false, "Database error occurred while creating borrow record.", st)
        else
          let st1 : LibraryState :=
            { st with records :=
                st.records ++ [⟨patron_id, book_id, borrow_date, due_date, none⟩] }
          if faults.update_availability_fails then
            (false, "Database error occurred while updating book availability.",
              st1)
          else
            (true,
              "Successfully borrowed \"" ++ book.title ++ "\". Due date: " ++
                toString due_date ++ ".",
              { st1 with books := adjust_available_copies st1.books book_id (-1) })

/-- `return_book_by_patron` (`library_service.py` lines 109-187): validate
patron id, book existence, active record; compute the late fee from the
record's due date; set `return_date = now` on the active record(s) for the
pair (the source `UPDATE ... WHERE ... return_date IS NULL` touches every
matching row); increment availability by 1; report the fee in the message. -/
def return_book_by_patron (st : LibraryState) (patron_id : String)
    (book_id : Nat) (now : Nat) : Bool × String × LibraryState :=
  if !(isValidPatronId patron_id) then
    (false, "Invalid patron ID. Must be exactly 6 digits.", st)
  else
    match get_book_by_id st book_id with
    | none => (false, "Book not found.", st)
    | some book =>
      match find_active_record st patron_id book_id with
      | none =>
        (false, "No active borrow record found for this book and patron.", st)
      | some record =>
        let fd := return_fee_days record.due_date now
        let days_late := fd.1
        let late_fee := fd.2
        let st1 : LibraryState :=
          { st with
            records := st.records.map (fun r =>
              if r.patron_id == patron_id && r.book_id == book_id &&
                  r.return_date == none
              then { r with return_date := some now } else r),
            books := adjust_available_copies st.books book_id 1 }
        if 0 < late_fee then
          (true,
            "Book \"" ++ book.title ++ "\" returned successfully. " ++
              "Late fee owed: $" ++ centsToDollars late_fee ++ " (" ++
              toString days_late ++ " days overdue).",
            st1)
        else
          (true,
            "Book \"" ++ book.title ++ "\" returned successfully. No late fees.",
            st1)

/-- One call's behaviour of the payment gateway's charge capability:
either the tri-state `(approved, transaction_id, detail)` result, or a
raised transport fault with its cause. -/
inductive GatewayChargeOutcome where
  | result (approved : Bool) (transaction_id : Option String) (detail : String)
  | fault (cause : String)
deriving Repr, DecidableEq

/-- Outcome of `pay_late_fees`, with a ghost flag recording whether the
gateway was invoked and, when it was, the charge description sent. -/
structure PayResult where
  success : Bool
  message : String
  transaction_id : Option String
  gateway_invoked : Bool
  charge_description : Option String
deriving Repr, DecidableEq

/-- Modelled from the spec: `pay_late_fees(patron_id, book_id, gateway)`
is exercised by the repository's tests but its definition is not under
src/. Per the spec's Payment Orchestrator contract: validate the patron
id (fail fast with "Invalid patron ID", gateway not invoked); compute the
fee via the fee re-query and fail with "No late fees..." when it is 0,
gateway not invoked; otherwise resolve the book's title, invoke
`gateway.process_payment` with description `Late fees for '<title>'`, and
translate the outcome: approved passes the transaction id through,
declined and raised faults yield failure with `transaction_id = none`,
a raised fault being caught and reported as "Payment processing error". -/
def pay_late_fees (st : LibraryState) (patron_id : String) (book_id : Nat)
    (now : Nat) (gateway : GatewayChargeOutcome) : PayResult :=
  if !(isValidPatronId patron_id) then
    ⟨false, "Invalid patron ID. Must be exactly 6 digits.", none, false, none⟩
  else
    let quote := calculate_late_fee_for_book st patron_id book_id now
    if quote.fee_amount == 0 then
      ⟨false, "No late fees for this book.", none, false, none⟩
    else
      let title :=
        match get_book_by_id st book_id with
        | some book => book.title
        | none => ""
      let description := "Late fees for " ++ "\'" ++ title ++ "\'"
      match gateway with
      | .result true transaction_id detail =>
        ⟨true, "Payment successful. " ++ detail, transaction_id, true,
          some description⟩
      | .result false _ detail =>
        ⟨false, "Payment failed: " ++ detail, none, true, some description⟩
      | .fault cause =>
        ⟨false, "Payment processing error: " ++ cause, none, true,
          some description⟩

/-- Outcome of `refund_late_fee_payment`, with a ghost flag recording
whether the gateway's refund capability was invoked. -/
structure RefundResult where
  success : Bool
  message : String
  gateway_invoked : Bool
deriving Repr, DecidableEq

/-- Modelled from the spec: transaction-id validity for the Refund
Orchestrator — non-empty and structurally a prior charge reference in the
gateway's issued-id shape, which the repository's tests fix as the
`txn_`-prefixed token format (`txn_123` accepted; empty, `abc123` and
null rejected). -/
def is_valid_transaction_id (transaction_id : Option String) : Bool :=
  match transaction_id with
  | none => false
  | some s => List.isPrefixOf "txn_".toList s.toList

/-- Modelled from the spec:
`refund_late_fee_payment(transaction_id, amount, gateway)` is exercised by
the repository's tests but its definition is not under src/. Per the
spec's Refund Orchestrator contract: reject a null/empty/malformed
transaction id with "Invalid transaction ID"; reject `amount <= 0` with a
message containing "greater than 0"; reject `amount > $15.00` with a
message containing "exceeds maximum late fee" — in each case without
invoking the gateway; otherwise pass the gateway's `(success, detail)`
result through unchanged. `amount_cents` is the refund amount in cents
(`Int`, since the interface admits negative inputs). -/
def refund_late_fee_payment (transaction_id : Option String)
    (amount_cents : Int) (gateway : Bool × String) : RefundResult :=
  if !(is_valid_transaction_id transaction_id) then
    ⟨false, "Invalid transaction ID.", false⟩
  else if amount_cents ≤ 0 then
    ⟨false, "Refund amount must be greater than 0.", false⟩
  else if (1500 : Int) < amount_cents then
    ⟨false, "Refund amount exceeds maximum late fee of $15.00.", false⟩
  else
    ⟨gateway.1, gateway.2, true⟩

/-- `hay` contains `needle` as a contiguous substring. -/
def containsSubstring (needle hay : String) : Prop :=
  ∃ pre post, hay = pre ++ needle ++ post

/-- Fixture: a catalog book with three copies, all available. -/
def duneBook : Book := ⟨1, "Dune", 3, 3⟩

/-- Fixture: one book, one active loan due at time 1209600 (14 days). -/
def sampleState : LibraryState :=
  ⟨[duneBook], [⟨"123456", 1, 0, 1209600, none⟩]⟩

/-- Fixture: the active loan of `sampleState`. -/
def sampleRecord : BorrowRecord := ⟨"123456", 1, 0, 1209600, none⟩

/-- Fixture: six books; patron 123456 holds five active loans (books 1-5),
book 6 has one available copy. -/
def limitState : LibraryState :=
  ⟨[⟨1, "B1", 1, 0⟩, ⟨2, "B2", 1, 0⟩, ⟨3, "B3", 1, 0⟩,
    ⟨4, "B4", 1, 0⟩, ⟨5, "B5", 1, 0⟩, ⟨6, "B6", 1, 1⟩],
   [⟨"123456", 1, 0, 1209600, none⟩, ⟨"123456", 2, 0, 1209600, none⟩,
    ⟨"123456", 3, 0, 1209600, none⟩, ⟨"123456", 4, 0, 1209600, none⟩,
    ⟨"123456", 5, 0, 1209600, none⟩]⟩

/-- Fixture: fault-free storage. -/
def noFaults : StorageFaults := ⟨false, false⟩

/-- Fixture: one book with three copies and no loans, for the
availability-depletion scenario. -/
def depletionState : LibraryState := ⟨[duneBook], []⟩

/-- Fixture: `depletionState` after patron 111111 borrows book 1. -/
def depState1 : LibraryState :=
  (borrow_book_by_patron noFaults depletionState "111111" 1 0).2.2

/-- Fixture: `depState1` after patron 222222 borrows book 1. -/
def depState2 : LibraryState :=
  (borrow_book_by_patron noFaults depState1 "222222" 1 0).2.2

/-- Fixture: `depState2` after patron 333333 borrows book 1. -/
def depState3 : LibraryState :=
  (borrow_book_by_patron noFaults depState2 "333333" 1 0).2.2

/-- The source's branch-and-cap fee computation coincides with the spec's
closed formula `min 1500 (50*min d 7 + 100*(d-7))` (cents). -/
theorem code_fee_eq_spec (d : Nat) :
    (if 1500 < (if d ≤ 7 then 50 * d else 350 + 100 * (d - 7)) then 1500
     else (if d ≤ 7 then 50 * d else 350 + 100 * (d - 7))) = specFeeCents d := by
  unfold specFeeCents
  by_cases h : d ≤ 7
  · rw [if_pos h, if_neg (by omega)]
    omega
  · rw [if_neg h]
    by_cases h2 : 1500 < 350 + 100 * (d - 7)
    · rw [if_pos h2]
      omega
    · rw [if_neg h2]
      omega

/-- The spec's fee formula never exceeds the $15.00 cap. -/
theorem specFeeCents_le_cap (d : Nat) : specFeeCents d ≤ 1500 := by
  unfold specFeeCents
  omega

theorem calc_invalid_patron (st : LibraryState) (p : String) (b now : Nat)
    (h : isValidPatronId p = false) :
    calculate_late_fee_for_book st p b now = ⟨0, 0, "Invalid patron ID"⟩ := by
  simp [calculate_late_fee_for_book, h]

theorem calc_book_not_found (st : LibraryState) (p : String) (b now : Nat)
    (hp : isValidPatronId p = true) (hb : get_book_by_id st b = none) :
    calculate_late_fee_for_book st p b now = ⟨0, 0, "Book not found"⟩ := by
  simp [calculate_late_fee_for_book, hp, hb]

theorem calc_no_active (st : LibraryState) (p : String) (b now : Nat)
    (book : Book) (hp : isValidPatronId p = true)
    (hb : get_book_by_id st b = some book)
    (hr : find_active_record st p b = none) :
    calculate_late_fee_for_book st p b now =
      ⟨0, 0, "No active borrow record found"⟩ := by
  simp [calculate_late_fee_for_book, hp, hb, hr]

theorem calc_not_overdue (st : LibraryState) (p : String) (b now : Nat)
    (book : Book) (record : BorrowRecord) (hp : isValidPatronId p = true)
    (hb : get_book_by_id st b = some book)
    (hr : find_active_record st p b = some record)
    (hd : now ≤ record.due_date) :
    calculate_late_fee_for_book st p b now = ⟨0, 0, "Book not overdue"⟩ := by
  simp [calculate_late_fee_for_book, hp, hb, hr, hd]

theorem calc_success (st : LibraryState) (p : String) (b now : Nat)
    (book : Book) (record : BorrowRecord) (hp : isValidPatronId p = true)
    (hb : get_book_by_id st b = some book)
    (hr : find_active_record st p b = some record)
    (hd : record.due_date < now) :
    calculate_late_fee_for_book st p b now =
      ⟨specFeeCents ((now - record.due_date) / secondsPerDay),
        (now - record.due_date) / secondsPerDay, "Success"⟩ := by
  simp only [calculate_late_fee_for_book, hp, hb, hr, Bool.not_true,
    Bool.false_eq_true, if_false, Nat.not_le.mpr hd, if_neg]
  rw [code_fee_eq_spec]

/-- `return_fee_days` coincides with days-truncation plus the spec's fee
formula: zero on or before the due date, else the truncated day count and
`specFeeCents` of it. -/
theorem return_fee_days_eq_spec (due now : Nat) :
    return_fee_days due now =
      (if due < now then
        ((now - due) / secondsPerDay,
         specFeeCents ((now - due) / secondsPerDay))
      else (0, 0)) := by
  unfold return_fee_days
  by_cases h : due < now
  · simp only [if_pos h]
    rw [code_fee_eq_spec]
  · rw [if_neg h, if_neg h]

/-- Adjusting availability rewrites the looked-up row and nothing else:
`find?` by id commutes with the per-row update. -/
theorem find_book_adjust (books : List Book) (bid : Nat) (delta : Int) :
    (adjust_available_copies books bid delta).find? (fun b => b.id == bid) =
      (books.find? (fun b => b.id == bid)).map
        (fun b => { b with available_copies := b.available_copies + delta }) := by
  induction books with
  | nil => rfl
  | cons hd tl ih =>
    unfold adjust_available_copies at ih ⊢
    by_cases h : (hd.id == bid) = true
    · simp only [List.map_cons, h, if_true, List.find?]
      simp [h]
    · simp only [List.map_cons, h, Bool.false_eq_true, if_false, List.find?]
      exact ih

theorem get_book_adjusted (st : LibraryState) (books' : List Book)
    (bid : Nat) (delta : Int)
    (hb : books' = adjust_available_copies st.books bid delta) :
    get_book_by_id ⟨books', st.records⟩ bid =
      (get_book_by_id st bid).map
        (fun b => { b with available_copies := b.available_copies + delta }) := by
  subst hb
  exact find_book_adjust st.books bid delta

theorem borrow_invalid_patron (faults : StorageFaults) (st : LibraryState)
    (p : String) (b now : Nat) (h : isValidPatronId p = false) :
    borrow_book_by_patron faults st p b now =
      (false, "Invalid patron ID. Must be exactly 6 digits.", st) := by
  simp [borrow_book_by_patron, h]

theorem borrow_book_missing (faults : StorageFaults) (st : LibraryState)
    (p : String) (b now : Nat) (hp : isValidPatronId p = true)
    (hb : get_book_by_id st b = none) :
    borrow_book_by_patron faults st p b now = (false, "Book not found.", st) := by
  simp [borrow_book_by_patron, hp, hb]

theorem borrow_unavailable (faults : StorageFaults) (st : LibraryState)
    (p : String) (b now : Nat) (book : Book) (hp : isValidPatronId p = true)
    (hb : get_book_by_id st b = some book)
    (ha : book.available_copies ≤ 0) :
    borrow_book_by_patron faults st p b now =
      (false, "This book is currently not available.", st) := by
  simp [borrow_book_by_patron, hp, hb, ha]

theorem borrow_limit_reached (faults : StorageFaults) (st : LibraryState)
    (p : String) (b now : Nat) (book : Book) (hp : isValidPatronId p = true)
    (hb : get_book_by_id st b = some book)
    (ha : 0 < book.available_copies)
    (hc : 5 ≤ get_patron_borrow_count st p) :
    borrow_book_by_patron faults st p b now =
      (false, "You have reached the maximum borrowing limit of 5 books.", st) := by
  simp [borrow_book_by_patron, hp, hb, Int.not_le.mpr ha, hc]

theorem borrow_success (st : LibraryState) (p : String) (b now : Nat)
    (book : Book) (hp : isValidPatronId p = true)
    (hb : get_book_by_id st b = some book)
    (ha : 0 < book.available_copies)
    (hc : get_patron_borrow_count st p < 5) :
    borrow_book_by_patron noFaults st p b now =
      (true,
        "Successfully borrowed \"" ++ book.title ++ "\". Due date: " ++
          toString (now + 14 * secondsPerDay) ++ ".",
        ⟨adjust_available_copies st.books b (-1),
         st.records ++ [⟨p, b, now, now + 14 * secondsPerDay, none⟩]⟩) := by
  simp [borrow_book_by_patron, hp, hb, Int.not_le.mpr ha, Nat.not_le.mpr hc,
    noFaults, adjust_available_copies]

theorem return_no_active (st : LibraryState) (p : String) (b now : Nat)
    (book : Book) (hp : isValidPatronId p = true)
    (hb : get_book_by_id st b = some book)
    (hr : find_active_record st p b = none) :
    return_book_by_patron st p b now =
      (false, "No active borrow record found for this book and patron.", st) := by
  simp [return_book_by_patron, hp, hb, hr]

theorem return_success (st : LibraryState) (p : String) (b now : Nat)
    (book : Book) (record : BorrowRecord) (hp : isValidPatronId p = true)
    (hb : get_book_by_id st b = some book)
    (hr : find_active_record st p b = some record) :
    return_book_by_patron st p b now =
      (true,
        (if 0 < (return_fee_days record.due_date now).2 then
          "Book \"" ++ book.title ++ "\" returned successfully. " ++
            "Late fee owed: $" ++
            centsToDollars (return_fee_days record.due_date now).2 ++ " (" ++
            toString (return_fee_days record.due_date now).1 ++
            " days overdue)."
        else
          "Book \"" ++ book.title ++ "\" returned successfully. No late fees."),
        ⟨adjust_available_copies st.books b 1,
         st.records.map (fun r =>
           if r.patron_id == p && r.book_id == b && r.return_date == none
           then { r with return_date := some now } else r)⟩) := by
  simp only [return_book_by_patron, hp, hb, hr, Bool.not_true,
    Bool.false_eq_true, if_false]
  by_cases h : 0 < (return_fee_days record.due_date now).2
  · simp [h]
  · simp [h]

/-- C1: for every active loan, the fee computed by
`calculate_late_fee_for_book` and the fee computed inside
`return_book_by_patron` (`return_fee_days`) follow the spec's piecewise
function: zero with zero overdue days when `now <= due_date`, else the
floor of the difference in whole days and
`min(15.00, 0.50*min(d,7) + 1.00*max(d-7,0))`, never exceeding the
$15.00 cap. -/
theorem fee_policy_matches_spec (st : LibraryState) (p : String)
    (b now : Nat) (book : Book) (record : BorrowRecord)
    (hp : isValidPatronId p = true)
    (hb : get_book_by_id st b = some book)
    (hr : find_active_record st p b = some record) :
    (now ≤ record.due_date →
      return_fee_days record.due_date now = (0, 0) ∧
      calculate_late_fee_for_book st p b now = ⟨0, 0, "Book not overdue"⟩) ∧
    (record.due_date < now →
      return_fee_days record.due_date now =
        ((now - record.due_date) / secondsPerDay,
          specFeeCents ((now - record.due_date) / secondsPerDay)) ∧
      calculate_late_fee_for_book st p b now =
        ⟨specFeeCents ((now - record.due_date) / secondsPerDay),
          (now - record.due_date) / secondsPerDay, "Success"⟩) ∧
    (∀ d : Nat, specFeeCents d ≤ 1500) := by
  refine ⟨fun h => ⟨?_, calc_not_overdue st p b now book record hp hb hr h⟩,
    fun h => ⟨?_, calc_success st p b now book record hp hb hr h⟩,
    specFeeCents_le_cap⟩
  · rw [return_fee_days_eq_spec, if_neg (Nat.not_lt.mpr h)]
  · rw [return_fee_days_eq_spec, if_pos h]

/-- Witness for C1: a loan 10 whole days overdue quotes
$6.50 = 0.50*7 + 1.00*3. -/
theorem fee_policy_matches_spec_witness :
    calculate_late_fee_for_book sampleState "123456" 1 2073600 =
      ⟨650, 10, "Success"⟩ := by
  have h := (fee_policy_matches_spec sampleState "123456" 1 2073600 duneBook
    sampleRecord (by decide) (by decide) (by decide)).2.1 (by decide)
  rw [h.2]
  decide

/-- C10: an active loan past its due date by less than one whole day gets
status `Success` with zero days overdue and zero fee — not
`Book not overdue` — because the overdue interval is truncated to whole
days. -/
theorem subday_overdue_is_zero_fee_success (st : LibraryState) (p : String)
    (b now : Nat) (book : Book) (record : BorrowRecord)
    (hp : isValidPatronId p = true)
    (hb : get_book_by_id st b = some book)
    (hr : find_active_record st p b = some record)
    (h1 : record.due_date < now)
    (h2 : now - record.due_date < secondsPerDay) :
    calculate_late_fee_for_book st p b now = ⟨0, 0, "Success"⟩ := by
  rw [calc_success st p b now book record hp hb hr h1,
    Nat.div_eq_of_lt h2]
  rfl

/-- Witness for C10: one second past the due date. -/
theorem subday_overdue_witness :
    calculate_late_fee_for_book sampleState "123456" 1 1209601 =
      ⟨0, 0, "Success"⟩ :=
  subday_overdue_is_zero_fee_success sampleState "123456" 1 1209601 duneBook
    sampleRecord (by decide) (by decide) (by decide) (by decide) (by decide)

/-- C5: `calculate_late_fee_for_book` is a total function returning a
structured quote: fee 0 and days 0 with a distinguishing status in each
failure shape (malformed patron id, absent book, no active record, not
yet overdue), status `Success` otherwise, and on every input the status
is one of exactly these five. -/
theorem get_fee_structured_statuses (st : LibraryState) (p : String)
    (b now : Nat) :
    (isValidPatronId p = false →
      calculate_late_fee_for_book st p b now = ⟨0, 0, "Invalid patron ID"⟩) ∧
    (isValidPatronId p = true → get_book_by_id st b = none →
      calculate_late_fee_for_book st p b now = ⟨0, 0, "Book not found"⟩) ∧
    (∀ book, isValidPatronId p = true → get_book_by_id st b = some book →
      find_active_record st p b = none →
      calculate_late_fee_for_book st p b now =
        ⟨0, 0, "No active borrow record found"⟩) ∧
    (∀ book record, isValidPatronId p = true →
      get_book_by_id st b = some book →
      find_active_record st p b = some record → now ≤ record.due_date →
      calculate_late_fee_for_book st p b now = ⟨0, 0, "Book not overdue"⟩) ∧
    (∀ book record, isValidPatronId p = true →
      get_book_by_id st b = some book →
      find_active_record st p b = some record → record.due_date < now →
      (calculate_late_fee_for_book st p b now).status = "Success") ∧
    ((calculate_late_fee_for_book st p b now).status = "Invalid patron ID" ∨
      (calculate_late_fee_for_book st p b now).status = "Book not found" ∨
      (calculate_late_fee_for_book st p b now).status =
        "No active borrow record found" ∨
      (calculate_late_fee_for_book st p b now).status = "Book not overdue" ∨
      (calculate_late_fee_for_book st p b now).status = "Success") := by
  refine ⟨fun h => calc_invalid_patron st p b now h,
    fun hp hb => calc_book_not_found st p b now hp hb,
    fun book hp hb hr => calc_no_active st p b now book hp hb hr,
    fun book record hp hb hr hd =>
      calc_not_overdue st p b now book record hp hb hr hd,
    fun book record hp hb hr hd => by
      rw [calc_success st p b now book record hp hb hr hd],
    ?_⟩
  by_cases hp : isValidPatronId p = true
  · cases hb : get_book_by_id st b with
    | none =>
      rw [calc_book_not_found st p b now hp hb]
      simp
    | some book =>
      cases hr : find_active_record st p b with
      | none =>
        rw [calc_no_active st p b now book hp hb hr]
        simp
      | some record =>
        by_cases hd : now ≤ record.due_date
        · rw [calc_not_overdue st p b now book record hp hb hr hd]
          simp
        · rw [calc_success st p b now book record hp hb hr (Nat.not_le.mp hd)]
          simp
  · rw [calc_invalid_patron st p b now (by simpa using hp)]
    simp

/-- Witness for C5: a well-formed patron id with an absent book yields the
`Book not found` quote. -/
theorem get_fee_structured_statuses_witness :
    calculate_late_fee_for_book sampleState "123456" 2 0 =
      ⟨0, 0, "Book not found"⟩ :=
  (get_fee_structured_statuses sampleState "123456" 2 0).2.1 (by decide)
    (by decide)

/-- C2: evaluation at a failing input — when the borrow-record insert
succeeds but the availability update fails, `borrow_book_by_patron`
reports failure yet leaves the freshly inserted record behind as an
active loan while availability is untouched: an orphan record, violating
the required atomicity of the record-insert/decrement pair. -/
theorem borrow_atomicity_violation :
    (borrow_book_by_patron ⟨false, true⟩ depletionState "123456" 1 0).1 =
      false ∧
    (borrow_book_by_patron ⟨false, true⟩ depletionState "123456" 1 0).2.2 =
      ⟨[duneBook], [⟨"123456", 1, 0, 1209600, none⟩]⟩ ∧
    find_active_record
      (borrow_book_by_patron ⟨false, true⟩ depletionState "123456" 1 0).2.2
      "123456" 1 = some ⟨"123456", 1, 0, 1209600, none⟩ ∧
    get_book_by_id
      (borrow_book_by_patron ⟨false, true⟩ depletionState "123456" 1 0).2.2 1 =
      some duneBook := by
  decide

/-- C6: `borrow_book_by_patron` fails, leaving the state unchanged, with a
distinct message for each violated precondition (malformed patron id,
absent book, no available copies, 5-loan limit); the four messages are
pairwise distinct; and concretely a patron with 5 active loans is refused
a 6th borrow with the limit message, while after returning one book a
further borrow succeeds. -/
theorem borrow_precondition_failures (faults : StorageFaults)
    (st : LibraryState) (p : String) (b now : Nat) :
    (isValidPatronId p = false →
      borrow_book_by_patron faults st p b now =
        (false, "Invalid patron ID. Must be exactly 6 digits.", st)) ∧
    (isValidPatronId p = true → get_book_by_id st b = none →
      borrow_book_by_patron faults st p b now =
        (false, "Book not found.", st)) ∧
    (∀ book, isValidPatronId p = true → get_book_by_id st b = some book →
      book.available_copies ≤ 0 →
      borrow_book_by_patron faults st p b now =
        (false, "This book is currently not available.", st)) ∧
    (∀ book, isValidPatronId p = true → get_book_by_id st b = some book →
      0 < book.available_copies → 5 ≤ get_patron_borrow_count st p →
      borrow_book_by_patron faults st p b now =
        (false, "You have reached the maximum borrowing limit of 5 books.",
          st)) ∧
    (("Invalid patron ID. Must be exactly 6 digits." : String) ≠
        "Book not found." ∧
      ("Invalid patron ID. Must be exactly 6 digits." : String) ≠
        "This book is currently not available." ∧
      ("Invalid patron ID. Must be exactly 6 digits." : String) ≠
        "You have reached the maximum borrowing limit of 5 books." ∧
      ("Book not found." : String) ≠
        "This book is currently not available." ∧
      ("Book not found." : String) ≠
        "You have reached the maximum borrowing limit of 5 books." ∧
      ("This book is currently not available." : String) ≠
        "You have reached the maximum borrowing limit of 5 books.") ∧
    (borrow_book_by_patron noFaults limitState "123456" 6 0 =
      (false, "You have reached the maximum borrowing limit of 5 books.",
        limitState)) ∧
    ((borrow_book_by_patron noFaults
        (return_book_by_patron limitState "123456" 1 0).2.2 "123456" 6 0).1 =
      true) := by
  refine ⟨fun h => borrow_invalid_patron faults st p b now h,
    fun hp hb => borrow_book_missing faults st p b now hp hb,
    fun book hp hb ha => borrow_unavailable faults st p b now book hp hb ha,
    fun book hp hb ha hc =>
      borrow_limit_reached faults st p b now book hp hb ha hc,
    by decide, by decide, by decide⟩

/-- Witness for C6: a malformed patron id is refused with the invalid-id
message and the state is untouched. -/
theorem borrow_precondition_failures_witness :
    borrow_book_by_patron noFaults sampleState "12" 1 0 =
      (false, "Invalid patron ID. Must be exactly 6 digits.", sampleState) :=
  (borrow_precondition_failures noFaults sampleState "12" 1 0).1 (by decide)

/-- C7: every successful borrow appends a record whose due date is the
borrow date plus exactly 14 days and decrements the book's availability
by exactly 1; and concretely repeated borrows of a book with 3 available
copies drive availability 3 → 2 → 1 → 0, the 4th attempt failing with the
not-available message. -/
theorem borrow_success_effects (st : LibraryState) (p : String)
    (b now : Nat) (book : Book) (hp : isValidPatronId p = true)
    (hb : get_book_by_id st b = some book)
    (ha : 0 < book.available_copies)
    (hc : get_patron_borrow_count st p < 5) :
    borrow_book_by_patron noFaults st p b now =
      (true,
        "Successfully borrowed \"" ++ book.title ++ "\". Due date: " ++
          toString (now + 14 * secondsPerDay) ++ ".",
        ⟨adjust_available_copies st.books b (-1),
         st.records ++ [⟨p, b, now, now + 14 * secondsPerDay, none⟩]⟩) ∧
    get_book_by_id (borrow_book_by_patron noFaults st p b now).2.2 b =
      some { book with available_copies := book.available_copies - 1 } ∧
    (get_book_by_id depState1 1 = some ⟨1, "Dune", 3, 2⟩ ∧
      get_book_by_id depState2 1 = some ⟨1, "Dune", 3, 1⟩ ∧
      get_book_by_id depState3 1 = some ⟨1, "Dune", 3, 0⟩ ∧
      borrow_book_by_patron noFaults depState3 "444444" 1 0 =
        (false, "This book is currently not available.", depState3)) := by
  have e := borrow_success st p b now book hp hb ha hc
  refine ⟨e, ?_, by decide⟩
  rw [e]
  have h3 : get_book_by_id
      ⟨adjust_available_copies st.books b (-1), st.records ++
        [⟨p, b, now, now + 14 * secondsPerDay, none⟩]⟩ b =
      (get_book_by_id st b).map
        (fun bk => { bk with
          available_copies := bk.available_copies + (-1) }) := by
    unfold get_book_by_id
    exact find_book_adjust st.books b (-1)
  have h4 : book.available_copies + (-1) = book.available_copies - 1 := by
    omega
  rw [h3, hb, Option.map_some', h4]

/-- Witness for C7: borrowing from `sampleState` by a second patron
appends a 14-day loan and drops availability from 3 to 2. -/
theorem borrow_success_effects_witness :
    borrow_book_by_patron noFaults sampleState "654321" 1 86400 =
      (true,
        "Successfully borrowed \"Dune\". Due date: " ++
          toString (86400 + 14 * secondsPerDay) ++ ".",
        ⟨[⟨1, "Dune", 3, 2⟩],
         [⟨"123456", 1, 0, 1209600, none⟩,
          ⟨"654321", 1, 86400, 1296000, none⟩]⟩) := by
  have h := (borrow_success_effects sampleState "654321" 1 86400 duneBook
    (by decide) (by decide) (by decide) (by decide)).1
  rw [h]
  decide

/-- C8: every successful return sets `return_date = now` on the active
record(s) for the pair, increments the book's availability by exactly 1,
and reports in its message a fee that follows the Fee Policy (the
truncated overdue-day count and `specFeeCents` of it) computed from the
record's due date and the current time; the resulting state is exactly
the record update plus the availability increment — the fee itself is
stored nowhere in it. -/
theorem return_success_effects (st : LibraryState) (p : String)
    (b now : Nat) (book : Book) (record : BorrowRecord)
    (hp : isValidPatronId p = true)
    (hb : get_book_by_id st b = some book)
    (hr : find_active_record st p b = some record) :
    return_book_by_patron st p b now =
      (true,
        (if 0 < (return_fee_days record.due_date now).2 then
          "Book \"" ++ book.title ++ "\" returned successfully. " ++
            "Late fee owed: $" ++
            centsToDollars (return_fee_days record.due_date now).2 ++ " (" ++
            toString (return_fee_days record.due_date now).1 ++
            " days overdue)."
        else
          "Book \"" ++ book.title ++ "\" returned successfully. No late fees."),
        ⟨adjust_available_copies st.books b 1,
         st.records.map (fun r =>
           if r.patron_id == p && r.book_id == b && r.return_date == none
           then { r with return_date := some now } else r)⟩) ∧
    get_book_by_id (return_book_by_patron st p b now).2.2 b =
      some { book with available_copies := book.available_copies + 1 } ∧
    (return_fee_days record.due_date now).2 =
      specFeeCents (return_fee_days record.due_date now).1 ∧
    ((return_fee_days record.due_date now).1 =
      if record.due_date < now then (now - record.due_date) / secondsPerDay
      else 0) := by
  have e := return_success st p b now book record hp hb hr
  refine ⟨e, ?_, ?_, ?_⟩
  · rw [e]
    have h3 : get_book_by_id
        ⟨adjust_available_copies st.books b 1,
         st.records.map (fun r =>
           if r.patron_id == p && r.book_id == b && r.return_date == none
           then { r with return_date := some now } else r)⟩ b =
        (get_book_by_id st b).map
          (fun bk => { bk with
            available_copies := bk.available_copies + 1 }) := by
      unfold get_book_by_id
      exact find_book_adjust st.books b 1
    exact h3.trans (by rw [hb, Option.map_some'])
  · rw [return_fee_days_eq_spec]
    by_cases h : record.due_date < now
    · simp [h]
    · simp [h, specFeeCents]
  · rw [return_fee_days_eq_spec]
    by_cases h : record.due_date < now
    · simp [h]
    · simp [h]

/-- Witness for C8: returning the 10-days-overdue loan of `sampleState`
stamps the record, bumps availability to 4, and reports the $6.50 fee. -/
theorem return_success_effects_witness :
    return_book_by_patron sampleState "123456" 1 2073600 =
      (true,
        "Book \"Dune\" returned successfully. " ++
          "Late fee owed: $6.50 (10 days overdue).",
        ⟨[⟨1, "Dune", 3, 4⟩], [⟨"123456", 1, 0, 1209600, some 2073600⟩]⟩) := by
  have h := (return_success_effects sampleState "123456" 1 2073600 duneBook
    sampleRecord (by decide) (by decide) (by decide)).1
  rw [h]
  decide

/-- C9: with a well-formed patron id and an existing book but no active
borrow record for the pair, `return_book_by_patron` fails with the
no-active-record message and returns the state — books, availability and
records — entirely unchanged. -/
theorem return_no_active_state_unchanged (st : LibraryState) (p : String)
    (b now : Nat) (book : Book) (hp : isValidPatronId p = true)
    (hb : get_book_by_id st b = some book)
    (hr : find_active_record st p b = none) :
    return_book_by_patron st p b now =
      (false, "No active borrow record found for this book and patron.",
        st) ∧
    containsSubstring "No active borrow record"
      (return_book_by_patron st p b now).2.1 ∧
    (return_book_by_patron st p b now).2.2 = st := by
  have e := return_no_active st p b now book hp hb hr
  refine ⟨e, ?_, by rw [e]⟩
  rw [e]
  exact ⟨"", " found for this book and patron.", rfl⟩

/-- Witness for C9: returning a never-borrowed book fails with the
no-active-record message and leaves the state as it was. -/
theorem return_no_active_state_unchanged_witness :
    return_book_by_patron depletionState "123456" 1 5 =
      (false, "No active borrow record found for this book and patron.",
        depletionState) :=
  (return_no_active_state_unchanged depletionState "123456" 1 5 duneBook
    (by decide) (by decide) (by decide)).1

/-- C3: `pay_late_fees` invokes the gateway only on a well-formed patron
id with a nonzero computed fee: a malformed patron id fails with the
invalid-id message without invoking the gateway; a zero computed fee
fails with the no-late-fees message without invoking the gateway; and a
gateway fault is caught, yielding `success = false`, a message containing
"Payment processing error", and `transaction_id = none` — never a
propagated fault. -/
theorem pay_gateway_discipline (st : LibraryState) (p : String)
    (b now : Nat) (g : GatewayChargeOutcome) :
    (isValidPatronId p = false →
      pay_late_fees st p b now g =
        ⟨false, "Invalid patron ID. Must be exactly 6 digits.", none, false,
          none⟩ ∧
      containsSubstring "Invalid patron ID"
        (pay_late_fees st p b now g).message) ∧
    (isValidPatronId p = true →
      (calculate_late_fee_for_book st p b now).fee_amount = 0 →
      pay_late_fees st p b now g =
        ⟨false, "No late fees for this book.", none, false, none⟩ ∧
      containsSubstring "No late fees"
        (pay_late_fees st p b now g).message) ∧
    (∀ cause, isValidPatronId p = true →
      (calculate_late_fee_for_book st p b now).fee_amount ≠ 0 →
      g = GatewayChargeOutcome.fault cause →
      (pay_late_fees st p b now g).success = false ∧
      (pay_late_fees st p b now g).transaction_id = none ∧
      (pay_late_fees st p b now g).message =
        "Payment processing error: " ++ cause ∧
      (pay_late_fees st p b now g).gateway_invoked = true ∧
      containsSubstring "Payment processing error"
        (pay_late_fees st p b now g).message) := by
  refine ⟨fun h => ?_, fun hp h0 => ?_, fun cause hp h0 hg => ?_⟩
  · have e : pay_late_fees st p b now g =
        ⟨false, "Invalid patron ID. Must be exactly 6 digits.", none, false,
          none⟩ := by
      simp [pay_late_fees, h]
    exact ⟨e, by rw [e]; exact ⟨"", ". Must be exactly 6 digits.", rfl⟩⟩
  · have e : pay_late_fees st p b now g =
        ⟨false, "No late fees for this book.", none, false, none⟩ := by
      simp [pay_late_fees, hp, h0]
    exact ⟨e, by rw [e]; exact ⟨"", " for this book.", rfl⟩⟩
  · subst hg
    have hm : (pay_late_fees st p b now (GatewayChargeOutcome.fault cause)) =
        ⟨false, "Payment processing error: " ++ cause, none, true,
          some ("Late fees for " ++ "\'" ++
            (match get_book_by_id st b with
             | some book => book.title
             | none => "") ++ "\'")⟩ := by
      simp [pay_late_fees, hp, h0]
    rw [hm]
    exact ⟨rfl, rfl, rfl, rfl, ⟨"", ": " ++ cause, rfl⟩⟩

/-- Witness for C3: a raised gateway fault on an overdue loan is caught
and reported, with no transaction id. -/
theorem pay_gateway_discipline_witness :
    (pay_late_fees sampleState "123456" 1 2073600
        (GatewayChargeOutcome.fault "network error")).success = false ∧
    (pay_late_fees sampleState "123456" 1 2073600
        (GatewayChargeOutcome.fault "network error")).transaction_id =
      none ∧
    (pay_late_fees sampleState "123456" 1 2073600
        (GatewayChargeOutcome.fault "network error")).message =
      "Payment processing error: " ++ "network error" := by
  have h := (pay_gateway_discipline sampleState "123456" 1 2073600
    (GatewayChargeOutcome.fault "network error")).2.2 "network error"
    (by decide) (by decide) rfl
  exact ⟨h.1, h.2.1, h.2.2.1⟩

/-- C4: `refund_late_fee_payment` invokes the gateway only for a
well-formed transaction token and an amount in (0, $15.00]: a
null/empty/malformed transaction id is rejected with "Invalid transaction
ID", a non-positive amount with a message containing "greater than 0", an
over-cap amount with a message containing "exceeds maximum late fee" —
each without invoking the gateway; otherwise the gateway's
`(success, detail)` result is passed through unchanged. -/
theorem refund_gateway_discipline (t : Option String) (a : Int)
    (g : Bool × String) :
    (is_valid_transaction_id t = false →
      refund_late_fee_payment t a g =
        ⟨false, "Invalid transaction ID.", false⟩ ∧
      containsSubstring "Invalid transaction ID"
        (refund_late_fee_payment t a g).message) ∧
    (is_valid_transaction_id t = true → a ≤ 0 →
      refund_late_fee_payment t a g =
        ⟨false, "Refund amount must be greater than 0.", false⟩ ∧
      containsSubstring "greater than 0"
        (refund_late_fee_payment t a g).message) ∧
    (is_valid_transaction_id t = true → (1500 : Int) < a →
      refund_late_fee_payment t a g =
        ⟨false, "Refund amount exceeds maximum late fee of $15.00.", false⟩ ∧
      containsSubstring "exceeds maximum late fee"
        (refund_late_fee_payment t a g).message) ∧
    (is_valid_transaction_id t = true → 0 < a → a ≤ 1500 →
      refund_late_fee_payment t a g = ⟨g.1, g.2, true⟩) ∧
    (is_valid_transaction_id none = false ∧
      is_valid_transaction_id (some "") = false ∧
      is_valid_transaction_id (some "abc123") = false ∧
      is_valid_transaction_id (some "txn_123") = true) := by
  refine ⟨fun h => ?_, fun ht h0 => ?_, fun ht hc => ?_, fun ht h0 hc => ?_,
    by decide⟩
  · have e : refund_late_fee_payment t a g =
        ⟨false, "Invalid transaction ID.", false⟩ := by
      simp [refund_late_fee_payment, h]
    exact ⟨e, by rw [e]; exact ⟨"", ".", rfl⟩⟩
  · have e : refund_late_fee_payment t a g =
        ⟨false, "Refund amount must be greater than 0.", false⟩ := by
      simp [refund_late_fee_payment, ht, h0]
    exact ⟨e, by rw [e]; exact ⟨"Refund amount must be ", ".", rfl⟩⟩
  · have e : refund_late_fee_payment t a g =
        ⟨false, "Refund amount exceeds maximum late fee of $15.00.", false⟩ := by
      simp [refund_late_fee_payment, ht, Int.not_le.mpr (by omega : (0 : Int) < a),
        hc]
    exact ⟨e, by rw [e]; exact ⟨"Refund amount ", " of $15.00.", rfl⟩⟩
  · simp [refund_late_fee_payment, ht, Int.not_le.mpr h0, Int.not_lt.mpr hc]

/-- Witness for C4: a $20.00 refund request on a valid token is rejected
as over the cap without touching the gateway. -/
theorem refund_gateway_discipline_witness :
    refund_late_fee_payment (some "txn_123") 2000 (true, "Refund OK") =
      ⟨false, "Refund amount exceeds maximum late fee of $15.00.", false⟩ :=
  ((refund_gateway_discipline (some "txn_123") 2000 (true, "Refund OK")).2.2.1
    (by decide) (by decide)).1
